import Mathlib

/-!
Verification of the authentication router of Project_PythonGram
(`src/routes/auth.py`): signup, login, refresh_token and logout handlers,
shallowly embedded as explicit state-passing functions over a database
record.  The repository collaborators (`src.repository.users` and
`src.services.auth`) are not part of the visible source; they are modelled
from the spec's collaborator contracts (spec section 6).  Tokens are
modelled as records carrying the subject claim and a freshness nonce drawn
from a counter in the database state; HTTP failures are explicit error
values carrying the status code and detail message.
-/

namespace AuthRoutes

/-- A JWT-style token: the `sub` claim and a freshness nonce (each minted
token consumes the database nonce counter, so distinct mints differ). -/
structure Token where
  sub : String
  nonce : Nat
deriving DecidableEq, Repr

/-- The `User` entity of `src.entity.models`: id, email, username
(`full_name`), password hash, ban flag and nullable stored refresh token. -/
structure User where
  id : Nat
  email : String
  full_name : String
  password : String
  ban : Bool
  refresh_token : Option Token
deriving DecidableEq, Repr

/-- The signup request body (`UserSchema`): email, username, plaintext
password. -/
structure UserSchema where
  email : String
  full_name : String
  password : String
deriving DecidableEq, Repr

/-- The token-pair response (`TokenSchema`):
`{access_token, refresh_token, token_type}`. -/
structure TokenSchema where
  access_token : Token
  refresh_token : Token
  token_type : String
deriving DecidableEq, Repr

/-- An HTTPException raised by a handler: status code and detail message. -/
structure HTTPError where
  status_code : Nat
  detail : String
deriving DecidableEq, Repr

/-- The persistent store: the user table, the refresh-token blacklist
(user id paired with the blacklisted token value), a fresh-id counter for
created users, and the nonce counter from which tokens are minted. -/
structure DB where
  users : List User
  blacklist : List (Nat × Option Token)
  nextId : Nat
  nonce : Nat
deriving DecidableEq, Repr

/-- Modelled from the spec: collaborator contract
`get_user_by_username(name) -> User|None` of `src.repository.users`
(absent from the visible source) — first user whose `full_name` matches. -/
def get_user_by_username (name : String) (db : DB) : Option User :=
  db.users.find? (fun u => u.full_name == name)

/-- Modelled from the spec: collaborator contract
`get_user_by_email(email) -> User|None` of `src.repository.users`
(absent from the visible source) — first user whose `email` matches. -/
def get_user_by_email (email : String) (db : DB) : Option User :=
  db.users.find? (fun u => u.email == email)

/-- Modelled from the spec: collaborator contract
`create_user(data) -> User` of `src.repository.users` (absent from the
visible source) — persists one new user record built from the request body,
with a fresh id, ban flag clear and no stored refresh token. -/
def create_user (body : UserSchema) (db : DB) : User × DB :=
  let u : User :=
    { id := db.nextId
      email := body.email
      full_name := body.full_name
      password := body.password
      ban := false
      refresh_token := none }
  (u, { db with users := db.users ++ [u], nextId := db.nextId + 1 })

/-- Modelled from the spec: collaborator contract
`update_token(user, token|None) -> void` of `src.repository.users`
(absent from the visible source) — overwrites the stored refresh token of
the given user's record. -/
def update_token (user : User) (tok : Option Token) (db : DB) : DB :=
  { db with
    users := db.users.map
      (fun v => if v.id = user.id then { v with refresh_token := tok } else v) }

/-- Modelled from the spec: collaborator contract
`get_password_hash(plain) -> hash` of `src.services.auth` (absent from the
visible source) — an abstract hashing function, modelled so that the hash
is never equal to the plaintext. -/
def get_password_hash (plain : String) : String :=
  "$2b$" ++ plain

/-- Modelled from the spec: collaborator contract
`verify_password(plain, hash) -> bool` of `src.services.auth` (absent from
the visible source) — verification succeeds exactly when the hash of the
plaintext matches the stored hash. -/
def verify_password (plain hash : String) : Bool :=
  get_password_hash plain == hash

/-- Modelled from the spec: collaborator contract
`create_access_token(claims) -> string` of `src.services.auth` (absent from
the visible source) — mints a token carrying the `sub` claim, consuming the
nonce counter. -/
def create_access_token (sub : String) (db : DB) : Token × DB :=
  (⟨sub, db.nonce⟩, { db with nonce := db.nonce + 1 })

/-- Modelled from the spec: collaborator contract
`create_refresh_token(claims) -> string` of `src.services.auth` (absent
from the visible source) — mints a token carrying the `sub` claim,
consuming the nonce counter. -/
def create_refresh_token (sub : String) (db : DB) : Token × DB :=
  (⟨sub, db.nonce⟩, { db with nonce := db.nonce + 1 })

/-- Modelled from the spec: collaborator contract
`decode_refresh_token(token) -> email` of `src.services.auth` (absent from
the visible source) — recovers the `sub` claim of a well-formed token. -/
def decode_refresh_token (token : Token) : String :=
  token.sub

/-- Modelled from the spec: collaborator contract
`add_token_to_blacklist(userId, token) -> void` of `src.services.auth`
(absent from the visible source) — appends one blacklist entry. -/
def add_token_to_blacklist (userId : Nat) (tok : Option Token) (db : DB) : DB :=
  { db with blacklist := db.blacklist ++ [(userId, tok)] }

/-- The `/auth/signup` handler of `src/routes/auth.py`: rejects a duplicate
username with 409 Conflict, otherwise hashes the password in place and
persists a new user, returning it. -/
def signup (body : UserSchema) (db : DB) : Except HTTPError User × DB :=
  match get_user_by_username body.full_name db with
  | some _ => (Except.error ⟨409, "Account already exists"⟩, db)
  | none =>
    let body' := { body with password := get_password_hash body.password }
    let (new_user, db') := create_user body' db
    (Except.ok new_user, db')

/-- The `/auth/login` handler of `src/routes/auth.py`: looks the user up by
username, checks the password and the ban flag in order, then mints an
access/refresh token pair on the user's email, persists the refresh token
and returns the pair. -/
def login (username password : String) (db : DB) : Except HTTPError TokenSchema × DB :=
  match get_user_by_username username db with
  | none => (Except.error ⟨401, "Invalid email"⟩, db)
  | some user =>
    if verify_password password user.password = false then
      (Except.error ⟨401, "Invalid password"⟩, db)
    else if user.ban then
      (Except.error ⟨401, "You were banned by an administrator"⟩, db)
    else
      let (access_token, db1) := create_access_token user.email db
      let (refresh, db2) := create_refresh_token user.email db1
      let db3 := update_token user (some refresh) db2
      (Except.ok ⟨access_token, refresh, "bearer"⟩, db3)

/-- The `/auth/refresh_token` handler of `src/routes/auth.py`: decodes the
presented token to an email, looks the user up by email, and compares the
presented token with the stored one — on mismatch it clears the stored
token and fails 401, on match it mints and persists a fresh pair.  The
source dereferences `user.refresh_token` without checking the lookup for
`None`; the `Option.none` result models that unhandled crash (an attribute
error, not an HTTP response). -/
def refresh_token (token : Token) (db : DB) :
    Option (Except HTTPError TokenSchema × DB) :=
  let email := decode_refresh_token token
  match get_user_by_email email db with
  | none => none
  | some user =>
    if user.refresh_token ≠ some token then
      let db1 := update_token user none db
      some (Except.error ⟨401, "Invalid refresh token"⟩, db1)
    else
      let (access_token, db1) := create_access_token email db
      let (refresh, db2) := create_refresh_token email db1
      let db3 := update_token user (some refresh) db2
      some (Except.ok ⟨access_token, refresh, "bearer"⟩, db3)

/-- The `/auth/logout` handler of `src/routes/auth.py`: blacklists the
authenticated user's current stored refresh token keyed by the user's id
and returns a confirmation message; it touches nothing else. -/
def logout (user : User) (db : DB) : String × DB :=
  ("Logout successful.", add_token_to_blacklist user.id user.refresh_token db)

/-- `find?` commutes with a `map` whose function does not change the value
of the predicate. -/
theorem find?_map_of_pres {f : User → User} {p : User → Bool}
    (h : ∀ v, p (f v) = p v) :
    ∀ l : List User, (l.map f).find? p = (l.find? p).map f := by
  intro l
  induction l with
  | nil => rfl
  | cons a t ih =>
    by_cases hp : p a = true
    · have hfa : p (f a) = true := by rw [h]; exact hp
      rw [List.map_cons, List.find?_cons_of_pos _ hfa, List.find?_cons_of_pos _ hp]
      rfl
    · have hfa : ¬ p (f a) = true := by rw [h]; exact hp
      rw [List.map_cons, List.find?_cons_of_neg _ hfa, List.find?_cons_of_neg _ hp, ih]

/-- Looking a user up by email after `update_token` returns the same record
as before, with its stored refresh token overwritten when its id matches. -/
theorem get_user_by_email_update_token (e : String) (u : User)
    (tok : Option Token) (db : DB) :
    get_user_by_email e (update_token u tok db) =
      (get_user_by_email e db).map
        (fun v => if v.id = u.id then { v with refresh_token := tok } else v) := by
  unfold get_user_by_email update_token
  exact find?_map_of_pres (fun v => by by_cases hid : v.id = u.id <;> simp [hid]) db.users

/-- Looking a user up by username after `update_token` returns the same
record as before, with its stored token overwritten when its id matches. -/
theorem get_user_by_username_update_token (name : String) (u : User)
    (tok : Option Token) (db : DB) :
    get_user_by_username name (update_token u tok db) =
      (get_user_by_username name db).map
        (fun v => if v.id = u.id then { v with refresh_token := tok } else v) := by
  unfold get_user_by_username update_token
  exact find?_map_of_pres (fun v => by by_cases hid : v.id = u.id <;> simp [hid]) db.users

/-- The modelled password hash is never the plaintext itself. -/
theorem get_password_hash_ne (p : String) : get_password_hash p ≠ p := by
  intro hEq
  have hlen := congrArg String.length hEq
  have h4 : ("$2b$" : String).length = 4 := rfl
  rw [get_password_hash, String.length_append, h4] at hlen
  omega

/-! Concrete fixtures used by the closed witness instances below. -/

/-- A minted refresh token held by the sample user `alice`. -/
def tokA : Token := ⟨"alice@example.com", 0⟩

/-- A sample non-banned user whose stored refresh token is `tokA`. -/
def alice : User :=
  ⟨1, "alice@example.com", "alice", get_password_hash "pw1", false, some tokA⟩

/-- A minted refresh token held by the sample user `bob`. -/
def tokB : Token := ⟨"bob@example.com", 1⟩

/-- A sample banned user whose stored refresh token is `tokB`. -/
def bob : User :=
  ⟨2, "bob@example.com", "bob", get_password_hash "pw2", true, some tokB⟩

/-- A sample database holding `alice` and `bob`, with the nonce counter
ahead of every stored token's nonce. -/
def db0 : DB := ⟨[alice, bob], [], 3, 5⟩

/-- C5: a signup whose username already belongs to an existing user fails
with 409 Conflict, message "Account already exists", and the store is
returned unchanged, so no new user record is created. -/
theorem signup_duplicate_conflict (body : UserSchema) (db : DB) (u : User)
    (hfind : get_user_by_username body.full_name db = some u) :
    signup body db = (Except.error ⟨409, "Account already exists"⟩, db) := by
  simp [signup, hfind]

/-- Witness for C5 at a concrete duplicate signup. -/
theorem signup_duplicate_conflict_witness :
    signup ⟨"other@example.com", "alice", "secret"⟩ db0 =
      (Except.error ⟨409, "Account already exists"⟩, db0) :=
  signup_duplicate_conflict ⟨"other@example.com", "alice", "secret"⟩ db0 alice
    (by decide)

/-- C6: a signup whose username is fresh persists exactly one new user
record whose password field is the hash of the submitted plaintext — never
the plaintext itself — and returns that created record. -/
theorem signup_fresh_hashes_and_persists (body : UserSchema) (db : DB)
    (hfind : get_user_by_username body.full_name db = none) :
    ∃ newUser db',
      signup body db = (Except.ok newUser, db') ∧
      newUser.password = get_password_hash body.password ∧
      newUser.password ≠ body.password ∧
      newUser.email = body.email ∧
      newUser.full_name = body.full_name ∧
      db'.users = db.users ++ [newUser] := by
  refine ⟨⟨db.nextId, body.email, body.full_name, get_password_hash body.password,
      false, none⟩,
    { db with
      users := db.users ++
        [⟨db.nextId, body.email, body.full_name, get_password_hash body.password,
          false, none⟩]
      nextId := db.nextId + 1 },
    ?_, rfl, get_password_hash_ne body.password, rfl, rfl, rfl⟩
  simp [signup, hfind, create_user]

/-- Witness for C6 at a concrete fresh signup. -/
theorem signup_fresh_hashes_and_persists_witness :
    ∃ newUser db',
      signup ⟨"carol@example.com", "carol", "pw3"⟩ db0 = (Except.ok newUser, db') ∧
      newUser.password = get_password_hash "pw3" ∧
      newUser.password ≠ "pw3" ∧
      newUser.email = "carol@example.com" ∧
      newUser.full_name = "carol" ∧
      db'.users = db0.users ++ [newUser] :=
  signup_fresh_hashes_and_persists ⟨"carol@example.com", "carol", "pw3"⟩ db0
    (by decide)

/-- C7: logout appends exactly one blacklist entry pairing the user's id
with the user's current stored refresh token and returns the confirmation
message, while the user table, the id counter and the nonce counter are
unchanged (in particular the stored refresh_token field is not cleared). -/
theorem logout_blacklists_current_token (user : User) (db : DB) :
    (logout user db).1 = "Logout successful." ∧
    (logout user db).2.blacklist = db.blacklist ++ [(user.id, user.refresh_token)] ∧
    (logout user db).2.users = db.users ∧
    (logout user db).2.nextId = db.nextId ∧
    (logout user db).2.nonce = db.nonce :=
  ⟨rfl, rfl, rfl, rfl, rfl⟩

/-- C8: a login with an existing username but a password that does not
verify returns 401 "Invalid password" and the store is returned unchanged,
so the stored refresh token is untouched. -/
theorem login_wrong_password_leaves_state (username password : String)
    (db : DB) (u : User)
    (hfind : get_user_by_username username db = some u)
    (hv : verify_password password u.password = false) :
    login username password db = (Except.error ⟨401, "Invalid password"⟩, db) := by
  simp [login, hfind, hv]

/-- Witness for C8 at a concrete wrong-password login. -/
theorem login_wrong_password_leaves_state_witness :
    login "alice" "bad" db0 = (Except.error ⟨401, "Invalid password"⟩, db0) :=
  login_wrong_password_leaves_state "alice" "bad" db0 alice (by decide) (by decide)

/-- C3: the login handler checks its failure conditions in order — unknown
username fails 401 "Invalid email"; otherwise a password that does not
verify fails 401 "Invalid password"; otherwise a set ban flag fails 401. -/
theorem login_checks_failures_in_order (username password : String) (db : DB) :
    (get_user_by_username username db = none →
      login username password db = (Except.error ⟨401, "Invalid email"⟩, db)) ∧
    (∀ u, get_user_by_username username db = some u →
      verify_password password u.password = false →
      login username password db = (Except.error ⟨401, "Invalid password"⟩, db)) ∧
    (∀ u, get_user_by_username username db = some u →
      verify_password password u.password = true → u.ban = true →
      login username password db =
        (Except.error ⟨401, "You were banned by an administrator"⟩, db)) :=
  ⟨fun h => by simp [login, h],
   fun u h hv => by simp [login, h, hv],
   fun u h hv hb => by simp [login, h, hv, hb]⟩

/-- Witness for C3: all three failure branches at concrete logins. -/
theorem login_checks_failures_in_order_witness :
    login "carol" "pw" db0 = (Except.error ⟨401, "Invalid email"⟩, db0) ∧
    login "alice" "wrong" db0 = (Except.error ⟨401, "Invalid password"⟩, db0) ∧
    login "bob" "pw2" db0 =
      (Except.error ⟨401, "You were banned by an administrator"⟩, db0) :=
  ⟨(login_checks_failures_in_order "carol" "pw" db0).1 (by decide),
   (login_checks_failures_in_order "alice" "wrong" db0).2.1 alice (by decide)
     (by decide),
   (login_checks_failures_in_order "bob" "pw2" db0).2.2 bob (by decide)
     (by decide) rfl⟩

/-- C4: a login with a verifying password on a non-banned user mints an
access token and a refresh token both carrying the user's email as the
`sub` claim, returns them with token_type "bearer", and persists the new
refresh token on the user's record, overwriting any prior value. -/
theorem login_success_rotates_token (username password : String) (db : DB)
    (u : User)
    (hfind : get_user_by_username username db = some u)
    (hv : verify_password password u.password = true)
    (hb : u.ban = false) :
    login username password db =
      (Except.ok ⟨⟨u.email, db.nonce⟩, ⟨u.email, db.nonce + 1⟩, "bearer"⟩,
        update_token u (some ⟨u.email, db.nonce + 1⟩)
          { db with nonce := db.nonce + 2 }) ∧
    get_user_by_username username
        (update_token u (some ⟨u.email, db.nonce + 1⟩)
          { db with nonce := db.nonce + 2 }) =
      some { u with refresh_token := some ⟨u.email, db.nonce + 1⟩ } := by
  constructor
  · simp [login, hfind, hv, hb, create_access_token, create_refresh_token]
  · rw [get_user_by_username_update_token,
      show get_user_by_username username { db with nonce := db.nonce + 2 } =
        get_user_by_username username db from rfl, hfind]
    simp

/-- Witness for C4 at a concrete successful login. -/
theorem login_success_rotates_token_witness :
    login "alice" "pw1" db0 =
      (Except.ok ⟨⟨alice.email, db0.nonce⟩, ⟨alice.email, db0.nonce + 1⟩, "bearer"⟩,
        update_token alice (some ⟨alice.email, db0.nonce + 1⟩)
          { db0 with nonce := db0.nonce + 2 }) ∧
    get_user_by_username "alice"
        (update_token alice (some ⟨alice.email, db0.nonce + 1⟩)
          { db0 with nonce := db0.nonce + 2 }) =
      some { alice with refresh_token := some ⟨alice.email, db0.nonce + 1⟩ } :=
  login_success_rotates_token "alice" "pw1" db0 alice (by decide) (by decide) rfl

/-- C2: when the user looked up by the email decoded from the presented
refresh token has a stored refresh token different from the presented one,
the handler persists a cleared (None) stored token and fails with 401
"Invalid refresh token". -/
theorem refresh_mismatch_clears_and_rejects (db : DB) (t : Token) (u : User)
    (hfind : get_user_by_email t.sub db = some u)
    (hne : u.refresh_token ≠ some t) :
    refresh_token t db =
      some (Except.error ⟨401, "Invalid refresh token"⟩, update_token u none db) ∧
    get_user_by_email t.sub (update_token u none db) =
      some { u with refresh_token := none } := by
  constructor
  · simp [refresh_token, decode_refresh_token, hfind, hne]
  · rw [get_user_by_email_update_token, hfind]
    simp

/-- Witness for C2: a token decoding to alice's email but different from
her stored token is rejected and her stored token is cleared. -/
theorem refresh_mismatch_clears_and_rejects_witness :
    refresh_token ⟨"alice@example.com", 7⟩ db0 =
      some (Except.error ⟨401, "Invalid refresh token"⟩,
        update_token alice none db0) ∧
    get_user_by_email "alice@example.com" (update_token alice none db0) =
      some { alice with refresh_token := none } :=
  refresh_mismatch_clears_and_rejects db0 ⟨"alice@example.com", 7⟩ alice
    (by decide) (by decide)

/-- C9: when the email decoded from the presented token belongs to no
stored user, the refresh handler does not produce an HTTP response at all:
it dereferences the missing user, modelled here by the `none` (crash)
result of `refresh_token`. -/
theorem refresh_missing_user_crashes (db : DB) (t : Token)
    (hfind : get_user_by_email (decode_refresh_token t) db = none) :
    refresh_token t db = none := by
  simp [refresh_token, hfind]

/-- Witness for C9: a validly-decodable token whose email has no account
makes the handler crash rather than answer 401. -/
theorem refresh_missing_user_crashes_witness :
    refresh_token ⟨"carol@example.com", 0⟩ db0 = none :=
  refresh_missing_user_crashes db0 ⟨"carol@example.com", 0⟩ (by decide)

/-- C10: the refresh handler never consults the ban flag — a banned user
presenting their stored refresh token still receives a fresh token pair,
while login rejects that same user as banned even with a verifying
password. -/
theorem refresh_ignores_ban_flag (db : DB) (t : Token) (u : User)
    (hfind : get_user_by_email t.sub db = some u)
    (hstored : u.refresh_token = some t)
    (hban : u.ban = true)
    (hname : get_user_by_username u.full_name db = some u) :
    refresh_token t db =
      some (Except.ok ⟨⟨t.sub, db.nonce⟩, ⟨t.sub, db.nonce + 1⟩, "bearer"⟩,
        update_token u (some ⟨t.sub, db.nonce + 1⟩)
          { db with nonce := db.nonce + 2 }) ∧
    (∀ password, verify_password password u.password = true →
      login u.full_name password db =
        (Except.error ⟨401, "You were banned by an administrator"⟩, db)) := by
  constructor
  · simp [refresh_token, decode_refresh_token, hfind, hstored,
      create_access_token, create_refresh_token]
  · intro password hv
    simp [login, hname, hv, hban]

/-- Witness for C10: banned `bob` refreshes successfully with his stored
token yet cannot log in with his correct password. -/
theorem refresh_ignores_ban_flag_witness :
    refresh_token tokB db0 =
      some (Except.ok ⟨⟨tokB.sub, db0.nonce⟩, ⟨tokB.sub, db0.nonce + 1⟩, "bearer"⟩,
        update_token bob (some ⟨tokB.sub, db0.nonce + 1⟩)
          { db0 with nonce := db0.nonce + 2 }) ∧
    login bob.full_name "pw2" db0 =
      (Except.error ⟨401, "You were banned by an administrator"⟩, db0) :=
  ⟨(refresh_ignores_ban_flag db0 tokB bob (by decide) (by decide) (by decide)
      (by decide)).1,
   (refresh_ignores_ban_flag db0 tokB bob (by decide) (by decide) (by decide)
      (by decide)).2 "pw2" (by decide)⟩

/-- C1: presenting the currently-stored refresh token succeeds, returns a
fresh pair and overwrites the stored token with the new refresh token; a
second presentation of the same old token is then rejected with 401
"Invalid refresh token" and the stored token is cleared.  The hypothesis
`t.nonce ≠ db.nonce + 1` says the presented token is not the very token
about to be minted, which holds for every previously-issued token since
minting always consumes the nonce counter. -/
theorem refresh_rotates_then_rejects_replay (db : DB) (t : Token) (u : User)
    (hfind : get_user_by_email t.sub db = some u)
    (hstored : u.refresh_token = some t)
    (hfresh : t.nonce ≠ db.nonce + 1) :
    refresh_token t db =
      some (Except.ok ⟨⟨t.sub, db.nonce⟩, ⟨t.sub, db.nonce + 1⟩, "bearer"⟩,
        update_token u (some ⟨t.sub, db.nonce + 1⟩)
          { db with nonce := db.nonce + 2 }) ∧
    get_user_by_email t.sub
        (update_token u (some ⟨t.sub, db.nonce + 1⟩)
          { db with nonce := db.nonce + 2 }) =
      some { u with refresh_token := some ⟨t.sub, db.nonce + 1⟩ } ∧
    refresh_token t
        (update_token u (some ⟨t.sub, db.nonce + 1⟩)
          { db with nonce := db.nonce + 2 }) =
      some (Except.error ⟨401, "Invalid refresh token"⟩,
        update_token { u with refresh_token := some ⟨t.sub, db.nonce + 1⟩ } none
          (update_token u (some ⟨t.sub, db.nonce + 1⟩)
            { db with nonce := db.nonce + 2 })) ∧
    get_user_by_email t.sub
        (update_token { u with refresh_token := some ⟨t.sub, db.nonce + 1⟩ } none
          (update_token u (some ⟨t.sub, db.nonce + 1⟩)
            { db with nonce := db.nonce + 2 })) =
      some { u with refresh_token := none } := by
  have hfind' : get_user_by_email t.sub
      (update_token u (some ⟨t.sub, db.nonce + 1⟩)
        { db with nonce := db.nonce + 2 }) =
      some { u with refresh_token := some ⟨t.sub, db.nonce + 1⟩ } := by
    rw [get_user_by_email_update_token,
      show get_user_by_email t.sub { db with nonce := db.nonce + 2 } =
        get_user_by_email t.sub db from rfl, hfind]
    simp
  have hne : ({ u with refresh_token := some ⟨t.sub, db.nonce + 1⟩ } : User).refresh_token
      ≠ some t := by
    simp only [ne_eq, Option.some.injEq]
    intro h
    exact hfresh (congrArg Token.nonce h.symm)
  refine ⟨?_, hfind', ?_, ?_⟩
  · simp [refresh_token, decode_refresh_token, hfind, hstored,
      create_access_token, create_refresh_token]
  · simp [refresh_token, decode_refresh_token, hfind', hne]
  · rw [get_user_by_email_update_token, hfind']
    simp

/-- Witness for C1: alice's stored token rotates once, then its replay is
rejected and the stored token is cleared. -/
theorem refresh_rotates_then_rejects_replay_witness :
    refresh_token tokA db0 =
      some (Except.ok ⟨⟨tokA.sub, db0.nonce⟩, ⟨tokA.sub, db0.nonce + 1⟩, "bearer"⟩,
        update_token alice (some ⟨tokA.sub, db0.nonce + 1⟩)
          { db0 with nonce := db0.nonce + 2 }) ∧
    get_user_by_email tokA.sub
        (update_token alice (some ⟨tokA.sub, db0.nonce + 1⟩)
          { db0 with nonce := db0.nonce + 2 }) =
      some { alice with refresh_token := some ⟨tokA.sub, db0.nonce + 1⟩ } ∧
    refresh_token tokA
        (update_token alice (some ⟨tokA.sub, db0.nonce + 1⟩)
          { db0 with nonce := db0.nonce + 2 }) =
      some (Except.error ⟨401, "Invalid refresh token"⟩,
        update_token { alice with refresh_token := some ⟨tokA.sub, db0.nonce + 1⟩ }
          none
          (update_token alice (some ⟨tokA.sub, db0.nonce + 1⟩)
            { db0 with nonce := db0.nonce + 2 })) ∧
    get_user_by_email tokA.sub
        (update_token { alice with refresh_token := some ⟨tokA.sub, db0.nonce + 1⟩ }
          none
          (update_token alice (some ⟨tokA.sub, db0.nonce + 1⟩)
            { db0 with nonce := db0.nonce + 2 })) =
      some { alice with refresh_token := none } :=
  refresh_rotates_then_rejects_replay db0 tokA alice (by decide) (by decide)
    (by decide)

end AuthRoutes
